import Mathlib

/-!
Shallow embedding of `Source/Core/DolphinQt2/GameList/GameList.cpp` (the
Dolphin game-list widget) and proofs about its view-selection policy,
context-menu composition, delete-retry loop, selection resolution,
compress/decompress handler and compression progress callback.

External collaborators (Qt widgets, the disc codec, the catalog model, the
settings store) are modelled as explicit inputs; enumerations and catalog
operations whose defining headers are not part of the source tree are
modelled from the spec and marked as such in their doc comments.
-/

/-- The three widgets a `GameList` can display: the table view (`m_table`),
the icon-grid list view (`m_list`) and the empty-state placeholder
(`m_empty`). -/
inductive ViewKind
  | table
  | list
  | empty
deriving DecidableEq, Repr

/-- Modelled from the spec: `DiscIO::Platform` (header `DiscIO/Enums.h` is not
in the source tree).  The values used by `GameList.cpp` are the GameCube disc,
Wii disc and Wii WAD platforms; `ELF_DOL` stands for any other platform kind
(the code treats every non-disc, non-WAD platform alike by adding no
platform-specific menu section). -/
inductive Platform
  | GAMECUBE_DISC
  | WII_DISC
  | WII_WAD
  | ELF_DOL
deriving DecidableEq, Repr

/-- Modelled from the spec: `DiscIO::BlobType` (header `DiscIO/Blob.h` is not
in the source tree).  The spec's data model stores a disc image either
compressed (`GCZ`) or uncompressed (`PLAIN`), and those are the two values
`GameList.cpp` distinguishes. -/
inductive BlobType
  | PLAIN
  | GCZ
deriving DecidableEq, Repr

/-- Embedding of `GameList::ConsiderViewChange`: pick the widget to show from the catalog
row count (`m_model->rowCount`) and the persisted preference
(`m_prefer_table`). -/
def ConsiderViewChange (rowCount : Nat) (prefer_table : Bool) : ViewKind :=
  if rowCount > 0 then
    if prefer_table then ViewKind.table else ViewKind.list
  else
    ViewKind.empty

/-- One entry of the context menu built by `GameList::ShowContextMenu`.  The
two WAD actions carry their enabled flag; every other entry is always
enabled. -/
inductive MenuEntry
  | properties
  | wiki
  | separator
  | defaultISO
  | decompressISO
  | compressISO
  | installWAD (enabled : Bool)
  | uninstallWAD (enabled : Bool)
  | openSaveFolder
  | exportWiiSave
  | openContainingFolder
  | removeFile
deriving DecidableEq, Repr

/-- The menu built by `GameList::ShowContextMenu` for a selected game with
the given platform and blob type, while `Core::IsRunning()` returns
`running`.  The WAD actions are created with `setEnabled(!Core::IsRunning())`
(lines 164-168 of `GameList.cpp`). -/
def buildMenu (platform : Platform) (blob_type : BlobType) (running : Bool) :
    List MenuEntry :=
  [MenuEntry.properties, MenuEntry.wiki, MenuEntry.separator]
  ++ (if platform = Platform.GAMECUBE_DISC ∨ platform = Platform.WII_DISC then
        [MenuEntry.defaultISO]
        ++ (if blob_type = BlobType.GCZ then [MenuEntry.decompressISO]
            else if blob_type = BlobType.PLAIN then [MenuEntry.compressISO]
            else [])
        ++ [MenuEntry.separator]
      else [])
  ++ (if platform = Platform.WII_WAD then
        [MenuEntry.installWAD (!running), MenuEntry.uninstallWAD (!running),
         MenuEntry.separator]
      else [])
  ++ (if platform = Platform.WII_WAD ∨ platform = Platform.WII_DISC then
        [MenuEntry.openSaveFolder, MenuEntry.exportWiiSave, MenuEntry.separator]
      else [])
  ++ [MenuEntry.openContainingFolder, MenuEntry.removeFile]

/-- The widget state `GameList::GetSelectedGame` reads: which widget is
current, the selected visible rows of each view's selection model (in the
order `selectedIndexes()` reports them), each proxy's `mapToSource` row map,
and the catalog lookup. `pathAt` is modelled from the spec:
`GameListModel::GetPath` is not in the source tree; the spec's catalog
contract is `pathAt(row)` returning the game reference (path) of that
catalog row. -/
structure GameListState where
  pathAt : Nat → String
  current : ViewKind
  tableSelected : List Nat
  listSelected : List Nat
  tableMapToSource : Nat → Nat
  listMapToSource : Nat → Nat

/-- Embedding of `GameList::GetSelectedGame`: pick the table view and proxy when the
current widget is `m_table`, otherwise the list view and proxy; if the
view's selection model has a selection, map its first selected index through
the proxy to a source row and return that row's path, else return `""`. -/
def GetSelectedGame (s : GameListState) : String :=
  let view_selected :=
    if s.current = ViewKind.table then s.tableSelected else s.listSelected
  let proxy_mapToSource :=
    if s.current = ViewKind.table then s.tableMapToSource else s.listMapToSource
  match view_selected with
  | [] => ""
  | i :: _ => s.pathAt (proxy_mapToSource i)

/-- The selected rows of the currently active view, phrased as the spec does
("resolve the currently active view"): the table's selection when the table
is current, the icon-grid list's selection otherwise. -/
def activeSelectedRows (s : GameListState) : List Nat :=
  if s.current = ViewKind.table then s.tableSelected else s.listSelected

/-- The active view's proxy row map, resolved the same way as
`activeSelectedRows`. -/
def activeMapToSource (s : GameListState) : Nat → Nat :=
  if s.current = ViewKind.table then s.tableMapToSource else s.listMapToSource

/-- Embedding of `GameList::ShowContextMenu`: resolve the selected game; if it is empty,
return without building a menu (`none`); otherwise build the menu from the
game's platform and blob type and the emulation-running state.  The game's
metadata lookups (`GameFile(game).GetPlatformID()`, `GetBlobType()`) are
modelled as the input functions `platformOf` and `blobOf`. -/
def ShowContextMenu (s : GameListState) (platformOf : String → Platform)
    (blobOf : String → BlobType) (running : Bool) : Option (List MenuEntry) :=
  let game := GetSelectedGame s
  if game.isEmpty then none
  else some (buildMenu (platformOf game) (blobOf game) running)

/-- C1: for every catalog size and persisted preference, the chosen view is
`empty` exactly when the catalog size is 0, is the table exactly when the
catalog is nonempty and the preference is Table, and is the icon grid exactly
when the catalog is nonempty and the preference is not Table. -/
theorem considerViewChange_policy (n : Nat) (p : Bool) :
    (ConsiderViewChange n p = ViewKind.empty ↔ n = 0) ∧
    (ConsiderViewChange n p = ViewKind.table ↔ (n ≠ 0 ∧ p = true)) ∧
    (ConsiderViewChange n p = ViewKind.list ↔ (n ≠ 0 ∧ p = false)) := by
  unfold ConsiderViewChange
  rcases Nat.eq_zero_or_pos n with h | h
  · subst h; simp
  · cases p <;> simp [h, Nat.pos_iff_ne_zero.mp h]

/-- C2: for every selected game whose platform is a disc image, the built
context menu contains the Default-ISO entry followed by exactly one of the
Decompress entry (when the blob is compressed, i.e. GCZ) and the Compress
entry (when it is uncompressed), followed by a separator. -/
theorem buildMenu_disc_section (platform : Platform) (blob : BlobType)
    (running : Bool)
    (h : platform = Platform.GAMECUBE_DISC ∨ platform = Platform.WII_DISC) :
    (∃ pre post, buildMenu platform blob running =
        pre ++ MenuEntry.defaultISO ::
          (if blob = BlobType.GCZ then MenuEntry.decompressISO
           else MenuEntry.compressISO) ::
          MenuEntry.separator :: post) ∧
    (buildMenu platform blob running).count MenuEntry.decompressISO
        = (if blob = BlobType.GCZ then 1 else 0) ∧
    (buildMenu platform blob running).count MenuEntry.compressISO
        = (if blob = BlobType.GCZ then 0 else 1) := by
  rcases h with h | h <;> subst h <;> cases blob <;> cases running <;>
    exact ⟨⟨[MenuEntry.properties, MenuEntry.wiki, MenuEntry.separator], _,
            by rfl⟩, by decide, by decide⟩

/-- Witness for C2 at a GameCube disc stored compressed. -/
theorem buildMenu_disc_section_witness :
    (∃ pre post, buildMenu Platform.GAMECUBE_DISC BlobType.GCZ false =
        pre ++ MenuEntry.defaultISO ::
          (if BlobType.GCZ = BlobType.GCZ then MenuEntry.decompressISO
           else MenuEntry.compressISO) ::
          MenuEntry.separator :: post) ∧
    (buildMenu Platform.GAMECUBE_DISC BlobType.GCZ false).count
        MenuEntry.decompressISO = (if BlobType.GCZ = BlobType.GCZ then 1 else 0) ∧
    (buildMenu Platform.GAMECUBE_DISC BlobType.GCZ false).count
        MenuEntry.compressISO = (if BlobType.GCZ = BlobType.GCZ then 0 else 1) :=
  buildMenu_disc_section Platform.GAMECUBE_DISC BlobType.GCZ false (Or.inl rfl)

/-- C5: selection resolution returns the empty string when the active view
has no selected row, and otherwise maps the first selected visible row of
the active view through that view's proxy to the catalog row and returns
that row's path. -/
theorem getSelectedGame_resolution (s : GameListState) :
    (activeSelectedRows s = [] → GetSelectedGame s = "") ∧
    (∀ i rest, activeSelectedRows s = i :: rest →
      GetSelectedGame s = s.pathAt (activeMapToSource s i)) := by
  constructor
  · intro h
    simp only [GetSelectedGame, activeSelectedRows] at *
    rw [h]
  · intro i rest h
    simp only [GetSelectedGame, activeSelectedRows, activeMapToSource] at *
    rw [h]

/-- Witness for C5: a state whose table view is current with visible row 1
selected, mapped by the table proxy to source row 0. -/
theorem getSelectedGame_resolution_witness :
    GetSelectedGame
        ⟨fun n => if n = 0 then "a.iso" else "", ViewKind.table, [1], [],
         fun n => n - 1, fun n => n⟩ = "a.iso" :=
  (getSelectedGame_resolution
      ⟨fun n => if n = 0 then "a.iso" else "", ViewKind.table, [1], [],
       fun n => n - 1, fun n => n⟩).2 1 [] rfl

/-- C9: a context-menu request made while selection resolution returns the
empty string builds no menu: `ShowContextMenu` returns `none`. -/
theorem showContextMenu_no_selection (s : GameListState)
    (platformOf : String → Platform) (blobOf : String → BlobType)
    (running : Bool) (h : (GetSelectedGame s).isEmpty = true) :
    ShowContextMenu s platformOf blobOf running = none := by
  simp [ShowContextMenu, h]

/-- Witness for C9: the icon-grid view is current and has no selection (the
table's stale selection is ignored), so no menu is built. -/
theorem showContextMenu_no_selection_witness :
    ShowContextMenu
        ⟨fun _ => "a.iso", ViewKind.list, [0], [], fun n => n, fun n => n⟩
        (fun _ => Platform.ELF_DOL) (fun _ => BlobType.PLAIN) false = none :=
  showContextMenu_no_selection _ _ _ _ rfl

/-- An emulation lifecycle event, as delivered by the `GameList` signals
`EmulationStarted` and `EmulationStopped` that the WAD menu actions are
connected to. -/
inductive EmuEvent
  | started
  | stopped
deriving DecidableEq, Repr

/-- The enabled flags of the two WAD actions of one built context menu. -/
structure WadActionStates where
  install_enabled : Bool
  uninstall_enabled : Bool
deriving DecidableEq, Repr

/-- Enablement at menu creation: both WAD actions are created and then set
with `a->setEnabled(!Core::IsRunning())` (line 167 of `GameList.cpp`). -/
def initWadActions (running : Bool) : WadActionStates :=
  { install_enabled := !running, uninstall_enabled := !running }

/-- The connected handlers: on `EmulationStarted` both actions are disabled
(line 166); on `EmulationStopped` the install action is enabled (line 172)
and the uninstall action is set to `GameFile(game).IsInstalled()` (line 174).
`installed` is the value `IsInstalled()` reports when a stop event is
handled. -/
def stepWadActions (installed : Bool) (_s : WadActionStates) (e : EmuEvent) :
    WadActionStates :=
  match e with
  | EmuEvent.started => { install_enabled := false, uninstall_enabled := false }
  | EmuEvent.stopped => { install_enabled := true, uninstall_enabled := installed }

/-- The WAD actions' enabled flags after the menu was created while
`Core::IsRunning()` returned `running` and the given emulation events were
then delivered. -/
def wadActionsAfter (running installed : Bool) (events : List EmuEvent) :
    WadActionStates :=
  events.foldl (stepWadActions installed) (initWadActions running)

/-- Whether emulation is running after the given events: each start event
sets it, each stop event clears it. -/
def runningAfter (running : Bool) (events : List EmuEvent) : Bool :=
  events.foldl
    (fun _ e => match e with
      | EmuEvent.started => true
      | EmuEvent.stopped => false)
    running

/-- C3 counterexample: a menu created while emulation is not running for a
package that is **not** installed (`installed = false`), with no emulation
event yet delivered.  The claim says the Uninstall entry is enabled iff
emulation is not running and the package is installed, which is false here;
the code enables it anyway, because the creation-time enablement is
`!Core::IsRunning()` without an `IsInstalled()` check. -/
theorem wadActions_uninstall_claim_false :
    ¬((wadActionsAfter false false []).uninstall_enabled = true ↔
      (runningAfter false [] = false ∧ (false : Bool) = true)) := by
  decide

/-- C3 (amended): at every moment, the Install entry is enabled iff emulation
is not running; the Uninstall entry is enabled iff emulation is not running
and (the package is installed, or no `EmulationStopped` event has been
delivered since the menu was created). -/
theorem wadActions_enablement (running installed : Bool)
    (events : List EmuEvent) :
    (wadActionsAfter running installed events).install_enabled
        = !(runningAfter running events) ∧
    (wadActionsAfter running installed events).uninstall_enabled
        = (!(runningAfter running events)
           && (installed || !(events.any (· == EmuEvent.stopped)))) := by
  induction events using List.reverseRecOn with
  | nil => simp [wadActionsAfter, runningAfter, initWadActions]
  | append_singleton l e ih =>
    cases e <;>
      simp [wadActionsAfter, runningAfter, List.foldl_append, List.any_append,
        stepWadActions]

/-- The user's answer to the delete-failed dialog of `GameList::DeleteFile`
(`QMessageBox::Retry` or `QMessageBox::Abort`). -/
inductive RetryChoice
  | retry
  | abort
deriving DecidableEq, Repr

/-- Modelled from the spec: `GameListModel::RemoveGame` is not in the source
tree; the spec's catalog contract is `removeGame(path)`, removing the catalog
entry for that path.  The catalog is modelled as the list of its entries'
paths; removal erases the first entry equal to the path. -/
def RemoveGame (game : String) (catalog : List String) : List String :=
  catalog.erase game

/-- The retry loop of `GameList::DeleteFile` (lines 344-367): attempt
`File::Delete`; on success call `m_model->RemoveGame(game)` and stop; on
failure show the retry/abort dialog and loop again only on Retry.
`outcomes` feeds each `File::Delete` call's result and `choices` feeds the
user's answer after each failed call; the result is the catalog together
with the number of `File::Delete` calls made. -/
def deleteLoop (game : String) (catalog : List String) :
    List Bool → List RetryChoice → List String × Nat
  | [], _ => (catalog, 0)
  | ok :: rest, choices =>
    if ok then (RemoveGame game catalog, 1)
    else
      match choices with
      | RetryChoice.retry :: cs =>
        let r := deleteLoop game catalog rest cs
        (r.1, r.2 + 1)
      | _ => (catalog, 1)

/-- Embedding of `GameList::DeleteFile`: the retry loop runs only when the user confirms
the warning dialog with Yes; otherwise nothing happens. -/
def DeleteFile (confirmed : Bool) (game : String) (catalog : List String)
    (outcomes : List Bool) (choices : List RetryChoice) : List String × Nat :=
  if confirmed then deleteLoop game catalog outcomes choices else (catalog, 0)

/-- If every attempt fails and the user retries `k` times and then aborts,
the catalog is unchanged and exactly `k + 1` delete calls were made. -/
theorem deleteLoop_all_fail_abort (game : String) (catalog : List String)
    (k : Nat) :
    deleteLoop game catalog (List.replicate (k + 1) false)
      (List.replicate k RetryChoice.retry ++ [RetryChoice.abort])
      = (catalog, k + 1) := by
  induction k with
  | zero => rfl
  | succ n ih =>
    show ((deleteLoop game catalog (List.replicate (n + 1) false)
            (List.replicate n RetryChoice.retry ++ [RetryChoice.abort])).1,
          (deleteLoop game catalog (List.replicate (n + 1) false)
            (List.replicate n RetryChoice.retry ++ [RetryChoice.abort])).2 + 1)
        = (catalog, n + 1 + 1)
    rw [ih]

/-- If the first `N` attempts fail, the user retries each time, and attempt
`N + 1` succeeds, the entry is removed and `N + 1` delete calls were made. -/
theorem deleteLoop_eventual_success (game : String) (catalog : List String)
    (N : Nat) :
    deleteLoop game catalog (List.replicate N false ++ [true])
      (List.replicate N RetryChoice.retry)
      = (RemoveGame game catalog, N + 1) := by
  induction N with
  | zero => rfl
  | succ n ih =>
    show ((deleteLoop game catalog (List.replicate n false ++ [true])
            (List.replicate n RetryChoice.retry)).1,
          (deleteLoop game catalog (List.replicate n false ++ [true])
            (List.replicate n RetryChoice.retry)).2 + 1)
        = (RemoveGame game catalog, n + 1 + 1)
    rw [ih]

/-- C4: for a confirmed deletion, (a) if every attempt fails and the user
aborts after `k` retries, no catalog entry is removed and deletion was
attempted exactly `k + 1` times (once initially plus once per explicit
retry); (b) if attempt `N + 1` succeeds after `N` retried failures, the
result is `RemoveGame`, which removes exactly one catalog entry. -/
theorem deleteFile_retry_semantics (game : String) (catalog : List String)
    (k N : Nat) (h : game ∈ catalog) :
    DeleteFile true game catalog (List.replicate (k + 1) false)
        (List.replicate k RetryChoice.retry ++ [RetryChoice.abort])
      = (catalog, k + 1) ∧
    DeleteFile true game catalog (List.replicate N false ++ [true])
        (List.replicate N RetryChoice.retry)
      = (RemoveGame game catalog, N + 1) ∧
    (RemoveGame game catalog).length + 1 = catalog.length := by
  refine ⟨deleteLoop_all_fail_abort game catalog k,
          deleteLoop_eventual_success game catalog N, ?_⟩
  have h1 := List.length_erase_of_mem h
  have h2 := List.length_pos_of_mem h
  unfold RemoveGame
  omega

/-- Witness for C4: catalog `["g", "x"]`, deleting `"g"`; one retry then
abort keeps both entries; two retried failures then success removes exactly
the entry for `"g"`. -/
theorem deleteFile_retry_semantics_witness :
    DeleteFile true "g" ["g", "x"] (List.replicate 2 false)
        (List.replicate 1 RetryChoice.retry ++ [RetryChoice.abort])
      = (["g", "x"], 2) ∧
    DeleteFile true "g" ["g", "x"] (List.replicate 2 false ++ [true])
        (List.replicate 2 RetryChoice.retry)
      = (RemoveGame "g" ["g", "x"], 3) ∧
    (RemoveGame "g" ["g", "x"]).length + 1 = (["g", "x"] : List String).length :=
  deleteFile_retry_semantics "g" ["g", "x"] 1 2 (by decide)

/-- The observable UI effects of one `GameList::CompressISO` invocation, in
the order they occur: the Wii lossy-compression warning dialog, the
file-save prompt, the call into the disc codec (`DecompressBlobToFile` when
`decompress` is true, `CompressFileToBlob` otherwise), the success message
box, and the failure error message. -/
inductive Effect
  | wiiWarningDialog
  | savePrompt
  | codecCall (decompress : Bool)
  | successDialog
  | failureDialog
deriving DecidableEq, Repr

/-- Embedding of `GameList::CompressISO` (also the Decompress handler: the branch is
picked by the selected file's blob type).  `wii_warning_no` is the user's
answer to the lossy-compression warning when that dialog is shown
(`true` means `QMessageBox::No`); `dst_path` is what the file-save prompt
returns; `codec_ok` is the boolean result of the codec call.  The
progress-dialog construction has no modal effect of its own and is not an
event; the codec and its callback are modelled separately by `CompressCB`. -/
def CompressISO (blob : BlobType) (platform : Platform) (wii_warning_no : Bool)
    (dst_path : String) (codec_ok : Bool) : List Effect :=
  let compressed := blob == BlobType.GCZ
  if !compressed && (platform == Platform.WII_DISC) && wii_warning_no then
    [Effect.wiiWarningDialog]
  else
    (if !compressed && (platform == Platform.WII_DISC) then
      [Effect.wiiWarningDialog]
    else [])
    ++ [Effect.savePrompt]
    ++ (if dst_path.isEmpty then []
        else
          [Effect.codecCall compressed]
          ++ (if codec_ok then [Effect.successDialog] else [Effect.failureDialog]))

/-- C6: whenever a `CompressISO` invocation reaches the codec call, exactly
one result dialog follows it: the success dialog when the codec returned
true, the failure dialog when it returned false, never both and never
none. -/
theorem compressISO_one_result_dialog (blob : BlobType) (platform : Platform)
    (wii_no : Bool) (dst : String) (codec_ok : Bool)
    (h : Effect.codecCall (blob == BlobType.GCZ)
          ∈ CompressISO blob platform wii_no dst codec_ok) :
    (∃ pre, CompressISO blob platform wii_no dst codec_ok
        = pre ++ [Effect.codecCall (blob == BlobType.GCZ),
                  if codec_ok then Effect.successDialog
                  else Effect.failureDialog]) ∧
    (CompressISO blob platform wii_no dst codec_ok).count Effect.successDialog
        = (if codec_ok then 1 else 0) ∧
    (CompressISO blob platform wii_no dst codec_ok).count Effect.failureDialog
        = (if codec_ok then 0 else 1) := by
  refine ⟨?_, ?_⟩
  · simp only [CompressISO] at h ⊢
    split_ifs at h ⊢ <;>
      first
        | exact ⟨[Effect.wiiWarningDialog, Effect.savePrompt], rfl⟩
        | exact ⟨[Effect.savePrompt], rfl⟩
        | simp_all
  · simp only [CompressISO] at h ⊢
    split_ifs at h ⊢ <;> simp_all [List.count_append, List.count_cons]

/-- Witness for C6: a compressed (GCZ) selection, a nonempty destination and
a codec success show exactly the success dialog, directly after the codec
call. -/
theorem compressISO_one_result_dialog_witness :
    (∃ pre, CompressISO BlobType.GCZ Platform.GAMECUBE_DISC false "d" true
        = pre ++ [Effect.codecCall true, Effect.successDialog]) ∧
    (CompressISO BlobType.GCZ Platform.GAMECUBE_DISC false "d" true).count
        Effect.successDialog = 1 ∧
    (CompressISO BlobType.GCZ Platform.GAMECUBE_DISC false "d" true).count
        Effect.failureDialog = 0 :=
  compressISO_one_result_dialog BlobType.GCZ Platform.GAMECUBE_DISC false "d"
    true (by decide)

/-- C7: when the file-save prompt yields an empty destination, `CompressISO`
returns without calling the codec and without showing any result dialog or
error. -/
theorem compressISO_empty_dst_aborts (blob : BlobType) (platform : Platform)
    (wii_no : Bool) (dst : String) (codec_ok : Bool)
    (h : dst.isEmpty = true) :
    Effect.codecCall true ∉ CompressISO blob platform wii_no dst codec_ok ∧
    Effect.codecCall false ∉ CompressISO blob platform wii_no dst codec_ok ∧
    Effect.successDialog ∉ CompressISO blob platform wii_no dst codec_ok ∧
    Effect.failureDialog ∉ CompressISO blob platform wii_no dst codec_ok := by
  simp only [CompressISO]
  split_ifs <;> simp_all

/-- Witness for C7: an empty destination string aborts silently. -/
theorem compressISO_empty_dst_aborts_witness :
    Effect.codecCall true ∉ CompressISO BlobType.PLAIN Platform.WII_DISC false "" true ∧
    Effect.codecCall false ∉ CompressISO BlobType.PLAIN Platform.WII_DISC false "" true ∧
    Effect.successDialog ∉ CompressISO BlobType.PLAIN Platform.WII_DISC false "" true ∧
    Effect.failureDialog ∉ CompressISO BlobType.PLAIN Platform.WII_DISC false "" true :=
  compressISO_empty_dst_aborts BlobType.PLAIN Platform.WII_DISC false "" true rfl

/-- The state of the `QProgressDialog` that `CompressCB` manipulates: its
current value and whether the user has pressed its cancel button.  The value
is kept as an exact rational; the integer truncation performed by
`QProgressDialog::setValue` is not modelled. -/
structure ProgressDialog where
  value : ℚ
  wasCanceled : Bool
deriving DecidableEq, Repr

/-- Embedding of `static bool CompressCB(const std::string&, float, void*)` (lines
439-447): with a null pointer it returns false; otherwise it sets the
dialog's value to `percent * 100` and returns the negation of
`wasCanceled()`. -/
def CompressCB (_text : String) (percent : ℚ) (ptr : Option ProgressDialog) :
    Option ProgressDialog × Bool :=
  match ptr with
  | none => (none, false)
  | some progress_dialog =>
    (some { progress_dialog with value := percent * 100 },
     !progress_dialog.wasCanceled)

/-- C8: with a valid dialog pointer the callback stores the percentage
scaled by 100 as the dialog's value and returns true exactly when the user
has not cancelled; and a false codec result (which a false callback return
produces, aborting the operation) never yields the success dialog. -/
theorem compressCB_progress_and_cancel (text : String) (percent : ℚ)
    (d : ProgressDialog) :
    (CompressCB text percent (some d)).1 = some { d with value := percent * 100 } ∧
    ((CompressCB text percent (some d)).2 = true ↔ d.wasCanceled = false) ∧
    (∀ blob platform wii_no dst,
      Effect.successDialog ∉ CompressISO blob platform wii_no dst false) := by
  refine ⟨rfl, ?_, ?_⟩
  · cases h : d.wasCanceled <;> simp [CompressCB, h]
  · intro blob platform wii_no dst
    simp only [CompressISO]
    split_ifs <;> simp_all

/-- C10: with a null user-data pointer the callback returns false (the abort
signal) and touches no dialog state. -/
theorem compressCB_null_ptr (text : String) (percent : ℚ) :
    CompressCB text percent none = (none, false) := rfl
